import Mathlib

/-!
Shallow embedding of the thearning-backend assignment workflow
(`src/assignments/routes.rs`, `src/users/models.rs`, `src/attachments/models.rs`)
together with proofs of the specification's claims about it.

The database is modelled as an explicit `Store` record of row lists; every
handler is a function from its inputs and a `Store` to an `Outcome` paired
with the (possibly mutated) store, so that partial mutation on an error path
is observable.  A Rust `.unwrap()` on a failed lookup is modelled by the
`Outcome.panicked` constructor.  Helpers of the repository whose sources are
not available (only their callers are) are modelled from the specification
and carry a doc comment saying so.
-/

/-- Rocket HTTP statuses used by the assignment routes. -/
inductive Status where
  | Ok
  | NotFound
  | Forbidden
  | InternalServerError
deriving DecidableEq, Repr

/-- Diesel-style data-access error (the routes never inspect its payload). -/
inductive DbError where
  | query
deriving DecidableEq, Repr

/-- Result of running a route handler: a value, an HTTP error status, or a
Rust panic (an `.unwrap()` of a failed operation). -/
inductive Outcome (α : Type) where
  | ok (value : α)
  | err (status : Status)
  | panicked
deriving DecidableEq, Repr

/-- `Role` from `src/users/models.rs`. -/
inductive Role where
  | Student
  | Teacher
  | Admin
deriving DecidableEq, Repr

/-- `Role::from_str` from `src/users/models.rs` lines 25-32. -/
def Role.from_str (role : String) : Except String Role :=
  match role with
  | "admin" => .ok .Admin
  | "teacher" => .ok .Teacher
  | "student" => .ok .Student
  | _ => .error "Invalid role"

/-- The `fmt::Display` implementation for `Role` from `src/users/models.rs`
lines 35-43. -/
def Role.display : Role → String
  | .Teacher => "teacher"
  | .Admin => "admin"
  | .Student => "student"

/-- `User` from `src/users/models.rs` lines 45-58 (`NaiveDate`/`NaiveDateTime`
values are modelled as opaque naturals). -/
structure User where
  user_id : String
  fullname : String
  profile_photo : String
  email : String
  password : String
  birth_place : String
  birth_date : Nat
  bio : String
  status : String
  created_at : Nat
deriving DecidableEq, Repr

/-- `User::is_admin` from `src/users/models.rs` lines 195-197. -/
def User.is_admin (u : User) : Bool :=
  u.status == "admin"

/-- `User::is_teacher` from `src/users/models.rs` lines 199-201. -/
def User.is_teacher (u : User) : Bool :=
  u.status == "teacher"

/-- Modelled from the spec: `User::is_student` is called by the assignment
routes but its definition is not among the available sources.  Per the spec's
role model (role ∈ \x7bstudent, teacher, admin\x7d decoded from the status
string, as in `Role::from_str`), a student actor is a user whose status
string is "student", by analogy with `is_admin`/`is_teacher`. -/
def User.is_student (u : User) : Bool :=
  u.status == "student"

/-- `Student` roster row from `src/users/models.rs` lines 92-102. -/
structure Student where
  id : Int
  user_id : String
  class_id : String
  created_at : Nat
deriving DecidableEq, Repr

/-- Modelled from the spec: the `Assignment` record (its `models.rs` is not
among the available sources).  Spec §3: identity, class reference, name,
instructions, draft flag, nullable creator reference, creation timestamp;
field names follow the accesses in `src/assignments/routes.rs`
(`assignment_id`, `assignment_name`, `instructions`, `draft`, `creator`). -/
structure Assignment where
  assignment_id : String
  class_id : String
  assignment_name : Option String
  instructions : Option String
  draft : Bool
  creator : Option String
  created_at : Nat
deriving DecidableEq, Repr

/-- Modelled from the spec: the `Submissions` record (its `models.rs` is not
among the available sources).  Spec §3: identity, assignment reference,
student reference, status (default "in progress" at creation). -/
structure Submissions where
  submission_id : String
  assignment_id : String
  user_id : String
  status : String
deriving DecidableEq, Repr

/-- `FillableSubmissions` as used by `update_assignment` in
`src/assignments/routes.rs` lines 53-56. -/
structure FillableSubmissions where
  assignment_id : String
  user_id : String
deriving DecidableEq, Repr

/-- `Attachment` from `src/attachments/models.rs` lines 13-25: a mandatory
file reference, optional assignment/announcement owner references, uploader
and timestamp. -/
structure Attachment where
  attachment_id : String
  file_id : String
  assignment_id : Option String
  announcement_id : Option String
  uploader : String
  created_at : Nat
deriving DecidableEq, Repr

/-- `FillableAttachment` from `src/attachments/models.rs` lines 27-33. -/
structure FillableAttachment where
  file_id : String
  assignment_id : Option String
  announcement_id : Option String
  uploader : String
deriving DecidableEq, Repr

/-- `Attachment::create` from `src/attachments/models.rs` lines 35-63: build
the row from the fillable data with a generated id and the current time,
insert it, and return it re-read.  `rid` stands for `generate_random_id()`
and `now` for `Local::now()`; the `QueryResult` error case only propagates
environmental database failures (there is no validation in the function), so
a healthy store always yields `.ok`. -/
def Attachment.create (new_data : FillableAttachment) (rid : Nat) (now : Nat) :
    Except DbError Attachment :=
  let new_attachment : Attachment := {
    attachment_id := toString rid
    file_id := new_data.file_id
    assignment_id := new_data.assignment_id
    announcement_id := new_data.announcement_id
    uploader := new_data.uploader
    created_at := now }
  .ok new_attachment

/-- The attachment row shape that `src/assignments/routes.rs` operates on
(`get_attachments`, the `attachments::table` filters and `delete_assignment`):
there `file_id` and `link_id` are optional content references and the row
additionally carries `submission_id`.  This differs from the struct in
`src/attachments/models.rs`, so it is embedded as its own record under the
`Routes` namespace. -/
structure Routes.Attachment where
  attachment_id : String
  file_id : Option String
  link_id : Option String
  assignment_id : Option String
  submission_id : Option String
  announcement_id : Option String
  uploader : String
  created_at : Nat
deriving DecidableEq, Repr

/-- Modelled from the spec: the `UploadedFile` record of the file store
(`src/files/models.rs` is not among the available sources); spec §6 only
requires that it can be resolved by id. -/
structure UploadedFile where
  file_id : String
  filename : String
deriving DecidableEq, Repr

/-- Modelled from the spec: the `Link` record of the link store
(`src/links/models.rs` is not among the available sources); spec §6 only
requires that it can be resolved by id. -/
structure Link where
  link_id : String
  url : String
deriving DecidableEq, Repr

/-- Modelled from the spec: the public assignment-scoped `Comment` record
(`src/comments/models.rs` is not among the available sources); spec §3:
identity, owner (assignment) reference, author reference, body, timestamp. -/
structure Comment where
  comment_id : String
  assignment_id : String
  user_id : String
  body : String
  created_at : Nat
deriving DecidableEq, Repr

/-- Modelled from the spec: the submission-scoped `PrivateComment` record
(`src/comments/models.rs` is not among the available sources); spec §3:
identity, owner (submission) reference, author reference, body, timestamp. -/
structure PrivateComment where
  private_comment_id : String
  submission_id : String
  user_id : String
  body : String
  created_at : Nat
deriving DecidableEq, Repr

/-- The `Commenter` trait bound used by `get_comments` in
`src/assignments/routes.rs` lines 181-197: any comment variant exposes its
author reference. -/
class Commenter (T : Type) where
  get_user_id : T → String

instance : Commenter Comment :=
  ⟨Comment.user_id⟩

instance : Commenter PrivateComment :=
  ⟨PrivateComment.user_id⟩

/-- Modelled from the spec: `ResponseUser` (defined in the parts of
`src/users/models.rs` not among the available sources); spec §4.4: a
public-safe user summary — display name and photo, never password or raw
email. -/
structure ResponseUser where
  fullname : String
  profile_photo : String
deriving DecidableEq, Repr

/-- Modelled from the spec: the `From<User>` conversion used as
`ResponseUser::from(user)` in `src/assignments/routes.rs` line 189. -/
def ResponseUser.from_user (u : User) : ResponseUser :=
  { fullname := u.fullname, profile_photo := u.profile_photo }

/-- `UserComment` from `src/assignments/routes.rs` lines 199-203. -/
structure UserComment (T : Type) where
  commenter : ResponseUser
  comment : T
deriving DecidableEq, Repr

/-- `AssignmentResponse` from `src/assignments/routes.rs` lines 153-158. -/
structure AssignmentResponse where
  attachment : Routes.Attachment
  file : Option UploadedFile
  link : Option Link
deriving DecidableEq, Repr

/-- A mail message as assembled by `send_mail` in
`src/assignments/routes.rs` lines 104-112.  The recipient field is `.to(...)`
in the source; `to` is reserved in Lean, hence `to_addr`. -/
structure Mail where
  to_addr : String
  subject : String
  html : String
deriving DecidableEq, Repr

/-- The database, modelled as lists of rows per table, plus the id generator
counter (`generate_random_id`), the clock (`Local::now()`), and a fault model
`fail_on`: the set of (assignment, student) pairs whose submission insert
fails with an underlying database error. -/
structure Store where
  users : List User
  students : List Student
  assignments : List Assignment
  submissions : List Submissions
  attachments : List Routes.Attachment
  files : List UploadedFile
  links : List Link
  comments : List Comment
  private_comments : List PrivateComment
  fail_on : List (String × String)
  next_id : Nat
  now : Nat
deriving DecidableEq, Repr

/-- `User::find_user` from `src/users/models.rs` lines 130-132: look the user
up by primary key. -/
def User.find_user (uid : String) (s : Store) : Option User :=
  s.users.find? (fun u => u.user_id == uid)

/-- Modelled from the spec: `get_user` from `src/users/routes.rs` (not among
the available sources), used by the assignment routes to load the verified
actor by the api-key's user id; spec §4.1 "Load actor". -/
def get_user (key : String) (s : Store) : Option User :=
  User.find_user key s

/-- Modelled from the spec: `Assignment::get_by_id` (its `models.rs` is not
among the available sources): load the assignment whose identity matches. -/
def Assignment.get_by_id (id : String) (s : Store) : Option Assignment :=
  s.assignments.find? (fun a => a.assignment_id == id)

/-- Modelled from the spec: `Student::load_in_class` (not among the available
sources); spec §2/§4.2: resolve the roster — all students currently enrolled
in the class. -/
def Student.load_in_class (class_id : String) (s : Store) : List Student :=
  s.students.filter (fun st => st.class_id == class_id)

/-- Decidable presence of a submission row for the (assignment, student)
natural key. -/
def pair_mem (aid uid : String) (s : Store) : Bool :=
  s.submissions.any (fun x => x.assignment_id == aid && x.user_id == uid)

/-- The fresh submission row inserted by `Submissions.create`: generated id,
the natural key from the fillable data, and the default "in progress"
status. -/
def Submissions.fresh_row (new_data : FillableSubmissions) (s : Store) : Submissions :=
  { submission_id := toString s.next_id
    assignment_id := new_data.assignment_id
    user_id := new_data.user_id
    status := "in progress" }

/-- The store after `Submissions.create` inserts a fresh row. -/
def Submissions.insert_row (new_data : FillableSubmissions) (s : Store) : Store :=
  { s with submissions := s.submissions ++ [Submissions.fresh_row new_data s],
           next_id := s.next_id + 1 }

/-- Modelled from the spec: `Submissions::create` (its `models.rs` is not
among the available sources); spec §4.2: ensure one submission row exists for
the (assignment, student) pair, defaulting status to "in progress" on first
creation, checking existence before insert (upsert-by-natural-key).  The
underlying insert fails with a database error exactly on the pairs listed in
the store's `fail_on` fault model. -/
def Submissions.create (new_data : FillableSubmissions) (s : Store) :
    Except DbError (Submissions × Store) :=
  match s.submissions.find?
      (fun x => x.assignment_id == new_data.assignment_id &&
                x.user_id == new_data.user_id) with
  | some existing => .ok (existing, s)
  | none =>
    if (new_data.assignment_id, new_data.user_id) ∈ s.fail_on then
      .error .query
    else
      .ok (Submissions.fresh_row new_data s, Submissions.insert_row new_data s)

/-- Modelled from the spec: `Submissions::get_by_id` (not among the available
sources), used by the student read view to load the actor's own submission
for the assignment; fails when no such row exists. -/
def Submissions.get_by_id (aid uid : String) (s : Store) : Option Submissions :=
  s.submissions.find? (fun x => x.assignment_id == aid && x.user_id == uid)

/-- Modelled from the spec: `Submissions::load_by_assignment` (not among the
available sources), used by the teacher read view to load all submissions of
an assignment. -/
def Submissions.load_by_assignment (aid : String) (s : Store) : List Submissions :=
  s.submissions.filter (fun x => x.assignment_id == aid)

/-- Modelled from the spec: `Comment::load_by_assignment` (not among the
available sources): all public comments owned by the assignment. -/
def Comment.load_by_assignment (aid : String) (s : Store) : List Comment :=
  s.comments.filter (fun c => c.assignment_id == aid)

/-- Modelled from the spec: `PrivateComment::load_by_submission` (not among
the available sources): all private comments owned by the submission. -/
def PrivateComment.load_by_submission (sid : String) (s : Store) : List PrivateComment :=
  s.private_comments.filter (fun c => c.submission_id == sid)

/-- Modelled from the spec: `UploadedFile::receive` (not among the available
sources); spec §6: resolve a stored file by id. -/
def UploadedFile.receive (id : String) (s : Store) : Option UploadedFile :=
  s.files.find? (fun f => f.file_id == id)

/-- Modelled from the spec: `Link::receive` (not among the available
sources); spec §6: resolve a stored link by id. -/
def Link.receive (id : String) (s : Store) : Option Link :=
  s.links.find? (fun l => l.link_id == id)

/-- Modelled from the spec: `Attachment::load_by_assignment_id` (not among
the available sources), used by `delete_assignment`: all attachments owned by
the assignment. -/
def Routes.Attachment.load_by_assignment_id (aid : String) (s : Store) :
    List Routes.Attachment :=
  s.attachments.filter (fun a => a.assignment_id == some aid)

/-- The `delete` of a single attachment row used in `delete_assignment`
(`src/assignments/routes.rs` lines 146-148). -/
def Routes.Attachment.delete (a : Routes.Attachment) (s : Store) : Store :=
  { s with attachments :=
      s.attachments.filter (fun x => !(x.attachment_id == a.attachment_id)) }

/-- The `assignment.delete(&conn)` row deletion used in `delete_assignment`
(`src/assignments/routes.rs` line 139). -/
def Assignment.delete_row (a : Assignment) (s : Store) : Store :=
  { s with assignments :=
      s.assignments.filter (fun x => !(x.assignment_id == a.assignment_id)) }

/-- `get_attachments` from `src/assignments/routes.rs` lines 160-179: for
each attachment resolve the optional file and link references; the source
`.unwrap()`s each resolution, so a dangling reference is a panic, modelled by
`none`. -/
def get_attachments : List Routes.Attachment → Store → Option (List AssignmentResponse)
  | [], _ => some []
  | thing :: rest, s =>
    match
      (match thing.file_id with
       | some id =>
         match UploadedFile.receive id s with
         | some f => some (some f)
         | none => none
       | none => some none),
      (match thing.link_id with
       | some id =>
         match Link.receive id s with
         | some l => some (some l)
         | none => none
       | none => some none) with
    | some file, some link =>
      match get_attachments rest s with
      | some res => some ({ attachment := thing, file := file, link := link } :: res)
      | none => none
    | _, _ => none

/-- `get_comments` from `src/assignments/routes.rs` lines 181-197: pair each
comment with its author resolved to a `ResponseUser`; the author lookup is
`.unwrap()`ed, so a missing author is a panic, modelled by `none`. -/
def get_comments {T : Type} [Commenter T] : List T → Store → Option (List (UserComment T))
  | [], _ => some []
  | thing :: rest, s =>
    match User.find_user (Commenter.get_user_id thing) s with
    | none => none
    | some user =>
      match get_comments rest s with
      | none => none
      | some res =>
        some ({ commenter := ResponseUser.from_user user, comment := thing } :: res)

/-- The e-mail collection loop of `update_assignment`
(`src/assignments/routes.rs` lines 71-75): one `User::find_user(..).unwrap()`
per roster student; a missing user is a panic, modelled by `none`. -/
def collect_emails : List Student → Store → Option (List String)
  | [], _ => some []
  | st :: rest, s =>
    match User.find_user st.user_id s with
    | none => none
    | some usr =>
      match collect_emails rest s with
      | none => none
      | some es => some (usr.email :: es)

/-- The constant part of the mail body before the heading text, from the
format string in `src/assignments/routes.rs` lines 88-102. -/
def mail_html_head : String :=
  "<!DOCTYPE html>\n<html lang=\"en\">\n<head>\n    <meta charset=\"UTF-8\">\n    <meta name=\"viewport\" content=\"width=device-width, initial-scale=1.0\">\n    <title>Hello from Lettre!</title>\n</head>\n<body>\n    <div style=\"display: block; align-items: center;\">\n        <h2 style=\"font-family: Arial, Helvetica, sans-serif;\">"

/-- The heading interpolated into the mail body's `<h2>` element:
"New Assignment from {sender}: {assignment name}". -/
def mail_heading (fullname nm : String) : String :=
  "New Assignment from " ++ fullname ++ ": " ++ nm

/-- The constant part of the mail body between the heading and the
instructions. -/
def mail_html_mid : String :=
  "</h2>\n        <br>\n        <h4 style=\"font-family: Arial, Helvetica, sans-serif;\">"

/-- The constant part of the mail body after the instructions. -/
def mail_html_tail : String :=
  "</h4>\n    </div>\n</body>\n</html>"

/-- `send_mail` from `src/assignments/routes.rs` lines 82-113: render one
HTML body (heading "New Assignment from {sender}: {assignment name}", then
the instructions), set the fixed subject "New Assignment", and spawn one send
per recipient.  The result is the list of messages whose delivery is
attempted, in recipient order; `assignment_name`/`instructions` are
`.unwrap()`ed, so `none` models the panic when either is unset. -/
def send_mail (user : User) (emails : List String) (assignment : Assignment) :
    Option (List Mail) :=
  match assignment.assignment_name, assignment.instructions with
  | some nm, some instr =>
    let html := mail_html_head ++ mail_heading user.fullname nm ++
                mail_html_mid ++ instr ++ mail_html_tail
    some (emails.map (fun email =>
      { to_addr := email, subject := "New Assignment", html := html }))
  | _, _ => none

/-- Modelled from the spec: `FillableAssignments` (the assignment `models.rs`
is not among the available sources); spec §4.1 step 4: the partial-update
payload carries name, instructions and draft flag, plus the creator slot the
route overwrites (`src/assignments/routes.rs` line 65). -/
structure FillableAssignments where
  assignment_name : Option String
  instructions : Option String
  draft : Option Bool
  creator : Option String
deriving DecidableEq, Repr

/-- `AssignmentData` as used by `update_assignment`
(`src/assignments/routes.rs` lines 45 and 63): the target assignment id plus
the fillable fields. -/
structure AssignmentData where
  id : String
  assignment : FillableAssignments
deriving DecidableEq, Repr

/-- Modelled from the spec: the field application of `utils::update` (not
among the available sources); spec §4.1 step 4: apply the new fields via
partial update — a provided (`some`) field overwrites, an absent (`none`)
field leaves the stored value unchanged. -/
def apply_update (a : Assignment) (f : FillableAssignments) : Assignment :=
  { a with
    assignment_name :=
      match f.assignment_name with
      | some v => some v
      | none => a.assignment_name
    instructions :=
      match f.instructions with
      | some v => some v
      | none => a.instructions
    draft :=
      match f.draft with
      | some b => b
      | none => a.draft
    creator :=
      match f.creator with
      | some v => some v
      | none => a.creator }

/-- Modelled from the spec: `utils::update` (not among the available
sources); spec §4.1 steps 4-5: persist the partial update of the assignment
row and return the re-loaded updated row. -/
def update (a : Assignment) (f : FillableAssignments) (s : Store) :
    Assignment × Store :=
  let newA := apply_update a f
  let rows := s.assignments.map
    (fun x => if x.assignment_id == a.assignment_id then newA else x)
  (newA, { s with assignments := rows })

/-- The submission fan-out loop of `update_assignment`
(`src/assignments/routes.rs` lines 52-61): one `Submissions::create` per
roster student, aborting with `InternalServerError` on the first failure. -/
def fanout (assignment_id : String) : List Student → Store → Except Status Unit × Store
  | [], s => (.ok (), s)
  | i :: rest, s =>
    match Submissions.create
        { assignment_id := assignment_id, user_id := i.user_id } s with
    | .ok (_, s1) => fanout assignment_id rest s1
    | .error _ => (.error .InternalServerError, s)

/-- `update_assignment` from `src/assignments/routes.rs` lines 36-80 (the
publish route): load the assignment (`NotFound` if absent), load the roster,
fan out one submission per student (`InternalServerError` on a creation
failure, with no rollback), overwrite the payload's creator slot with the
acting user, apply the partial update, collect the creator and the roster
e-mail addresses, hand the messages to `send_mail`, and return the updated
assignment.  Every `.unwrap()` of the source is modelled by
`Outcome.panicked`, with the store mutations made so far kept. -/
def update_assignment (key : String) (class_id : String) (data : AssignmentData)
    (s : Store) : Outcome Assignment × Store :=
  match Assignment.get_by_id data.id s with
  | none => (.err .NotFound, s)
  | some assignment =>
    let students := Student.load_in_class class_id s
    match fanout assignment.assignment_id students s with
    | (.error st, s1) => (.err st, s1)
    | (.ok _, s1) =>
      match get_user key s1 with
      | none => (.panicked, s1)
      | some actor =>
        let assignment_data := { data.assignment with creator := some actor.user_id }
        let new := (update assignment assignment_data s1).1
        let s2 := (update assignment assignment_data s1).2
        match new.creator with
        | none => (.panicked, s2)
        | some cid =>
          match User.find_user cid s2 with
          | none => (.panicked, s2)
          | some creator =>
            match collect_emails students s2 with
            | none => (.panicked, s2)
            | some emails =>
              match send_mail creator emails new with
              | none => (.panicked, s2)
              | some _ => (.ok new, s2)

/-- The tail of `delete_assignment` after all gates have passed
(`src/assignments/routes.rs` lines 139-150): delete the assignment row, load
its attachments, delete each of them, return 200. -/
def delete_assignment_commit (assignment : Assignment) (s : Store) :
    Outcome Status × Store :=
  let s1 := Assignment.delete_row assignment s
  let att := Routes.Attachment.load_by_assignment_id assignment.assignment_id s1
  let s2 := att.foldl (fun st i => Routes.Attachment.delete i st) s1
  (.ok .Ok, s2)

/-- `delete_assignment` from `src/assignments/routes.rs` lines 115-151: load
the actor (`.unwrap()` — panic when absent), load the assignment (`NotFound`
if absent), reject students with `Forbidden`, and for a non-draft assignment
reject with `Forbidden` a teacher whose user id equals the recorded creator
(the creator reference is `.unwrap()`ed inside that condition — panic when it
is unset); otherwise delete the row and its attachments. -/
def delete_assignment (key : String) (class_id : String) (assignment_id : String)
    (s : Store) : Outcome Status × Store :=
  match get_user key s with
  | none => (.panicked, s)
  | some user =>
    match Assignment.get_by_id assignment_id s with
    | none => (.err .NotFound, s)
    | some assignment =>
      if user.is_student then (.err .Forbidden, s)
      else if assignment.draft = false then
        if user.is_teacher then
          match assignment.creator with
          | none => (.panicked, s)
          | some c =>
            if c = user.user_id then (.err .Forbidden, s)
            else delete_assignment_commit assignment s
        else delete_assignment_commit assignment s
      else delete_assignment_commit assignment s

/-- The JSON payload of the student read view
(`src/assignments/routes.rs` lines 252-254). -/
structure StudentsAssignmentResponse where
  assignment_attachments : List AssignmentResponse
  assignment : Assignment
  submission : Submissions
  submission_attachments : List AssignmentResponse
  comments : List (UserComment Comment)
  private_comments : List (UserComment PrivateComment)
deriving DecidableEq, Repr

/-- `students_assignment` from `src/assignments/routes.rs` lines 205-255 (the
student read view): load the actor (`NotFound` if absent), require the
student role (`Forbidden` otherwise), load the assignment (`NotFound` if
absent), resolve the public comments, load the assignment attachments, load
the actor's own submission — `.unwrap()`ed in the source, so its absence is a
panic, not an error status — then the private comments and submission
attachments, resolve both attachment sets, and return the combined payload.
The read view never mutates the store. -/
def students_assignment (key : String) (class_id : String) (assignment_id : String)
    (s : Store) : Outcome StudentsAssignmentResponse × Store :=
  match User.find_user key s with
  | none => (.err .NotFound, s)
  | some user =>
    if !user.is_student then (.err .Forbidden, s)
    else
      match Assignment.get_by_id assignment_id s with
      | none => (.err .NotFound, s)
      | some assignment =>
        let comments := Comment.load_by_assignment assignment.assignment_id s
        match get_comments comments s with
        | none => (.panicked, s)
        | some comment_response =>
          let assignment_attachments := s.attachments.filter
            (fun x => x.assignment_id == some assignment.assignment_id)
          match Submissions.get_by_id assignment_id user.user_id s with
          | none => (.panicked, s)
          | some submission =>
            let private_comments :=
              PrivateComment.load_by_submission submission.submission_id s
            match get_comments private_comments s with
            | none => (.panicked, s)
            | some private_comment_response =>
              let submission_attachments := s.attachments.filter
                (fun x => x.submission_id == some submission.submission_id)
              match get_attachments assignment_attachments s with
              | none => (.panicked, s)
              | some assignment_resp =>
                match get_attachments submission_attachments s with
                | none => (.panicked, s)
                | some submission_resp =>
                  (.ok { assignment_attachments := assignment_resp
                         assignment := assignment
                         submission := submission
                         submission_attachments := submission_resp
                         comments := comment_response
                         private_comments := private_comment_response }, s)

/-- The JSON payload of the teacher read view
(`src/assignments/routes.rs` lines 297-299). -/
structure TeachersAssignmentResponse where
  assignment_attachments : List AssignmentResponse
  assignment : Assignment
  submissions : List Submissions
deriving DecidableEq, Repr

/-- `teachers_assignment` from `src/assignments/routes.rs` lines 257-300 (the
teacher read view): load the actor (`NotFound` if absent), reject students
with `Forbidden`, load the assignment (`NotFound` if absent), load all its
submissions (a failed load is tolerated as the empty list), and return the
payload with the resolved assignment attachments.  The per-submission
attachment loads of the source (lines 283-288) are discarded without effect
and contribute nothing observable.  The read view never mutates the store. -/
def teachers_assignment (key : String) (class_id : String) (assignment_id : String)
    (s : Store) : Outcome TeachersAssignmentResponse × Store :=
  match User.find_user key s with
  | none => (.err .NotFound, s)
  | some user =>
    if user.is_student then (.err .Forbidden, s)
    else
      match Assignment.get_by_id assignment_id s with
      | none => (.err .NotFound, s)
      | some assignment =>
        let submission := Submissions.load_by_assignment assignment.assignment_id s
        let assignment_attachments := s.attachments.filter
          (fun x => x.assignment_id == some assignment.assignment_id)
        match get_attachments assignment_attachments s with
        | none => (.panicked, s)
        | some assignment_resp =>
          (.ok { assignment_attachments := assignment_resp
                 assignment := assignment
                 submissions := submission }, s)

/-- The submission rows of a given assignment in a store. -/
def submissions_for (aid : String) (s : Store) : List Submissions :=
  s.submissions.filter (fun x => x.assignment_id == aid)

/-- The student references of the submission rows of a given assignment. -/
def users_for (aid : String) (s : Store) : List String :=
  (submissions_for aid s).map Submissions.user_id

/-- Sample teacher "t1" used in concrete instantiations. -/
def userT1 : User :=
  { user_id := "t1", fullname := "Tia Teacher", profile_photo := "p1"
    email := "t1@example.com", password := "h1", birth_place := "B"
    birth_date := 0, bio := "", status := "teacher", created_at := 0 }

/-- Sample teacher "t2" used in concrete instantiations. -/
def userT2 : User :=
  { user_id := "t2", fullname := "Ted Teacher", profile_photo := "p2"
    email := "t2@example.com", password := "h2", birth_place := "B"
    birth_date := 0, bio := "", status := "teacher", created_at := 0 }

/-- Sample student "s1" used in concrete instantiations. -/
def userS1 : User :=
  { user_id := "s1", fullname := "Sam Student", profile_photo := "p3"
    email := "s1@example.com", password := "h3", birth_place := "B"
    birth_date := 0, bio := "", status := "student", created_at := 0 }

/-- Sample student "s2" used in concrete instantiations. -/
def userS2 : User :=
  { user_id := "s2", fullname := "Sue Student", profile_photo := "p4"
    email := "s2@example.com", password := "h4", birth_place := "B"
    birth_date := 0, bio := "", status := "student", created_at := 0 }

/-- Roster row enrolling "s1" in class "c1". -/
def rosterS1 : Student :=
  { id := 1, user_id := "s1", class_id := "c1", created_at := 0 }

/-- Roster row enrolling "s2" in class "c1". -/
def rosterS2 : Student :=
  { id := 2, user_id := "s2", class_id := "c1", created_at := 0 }

/-- A draft assignment "a1" of class "c1" with empty content fields. -/
def draftA1 : Assignment :=
  { assignment_id := "a1", class_id := "c1", assignment_name := none
    instructions := none, draft := true, creator := none, created_at := 0 }

/-- A published assignment "a1" of class "c1" created by "t1". -/
def publishedA1 : Assignment :=
  { assignment_id := "a1", class_id := "c1", assignment_name := some "HW1"
    instructions := some "Read ch1", draft := false, creator := some "t1"
    created_at := 0 }

/-- The fillable publish payload: name "HW1", instructions "Read ch1", clear
the draft flag. -/
def fields1 : FillableAssignments :=
  { assignment_name := some "HW1", instructions := some "Read ch1"
    draft := some false, creator := none }

/-- The publish payload targeting assignment "a1". -/
def data1 : AssignmentData :=
  { id := "a1", assignment := fields1 }

/-- A store with an empty attachment/file/link/comment side, used as the base
of several concrete scenarios: teacher "t1", students "s1"/"s2" enrolled in
class "c1", and the draft assignment "a1". -/
def store1 : Store :=
  { users := [userT1, userS1, userS2]
    students := [rosterS1, rosterS2]
    assignments := [draftA1]
    submissions := [], attachments := [], files := [], links := []
    comments := [], private_comments := []
    fail_on := [], next_id := 100, now := 5 }

/-- `store1` with a fault injected: the submission insert for the pair
("a1", "s2") fails with a database error. -/
def store2 : Store :=
  { store1 with fail_on := [("a1", "s2")] }

/-- A store for the re-publish scenario: teachers "t1" and "t2", no roster,
and assignment "a1" already published with creator "t1". -/
def store7 : Store :=
  { users := [userT1, userT2]
    students := []
    assignments := [publishedA1]
    submissions := [], attachments := [], files := [], links := []
    comments := [], private_comments := []
    fail_on := [], next_id := 100, now := 5 }

/-- An attachment row with both the file and the link reference set. -/
def attBoth : Routes.Attachment :=
  { attachment_id := "at1", file_id := some "f1", link_id := some "l1"
    assignment_id := some "a1", submission_id := none, announcement_id := none
    uploader := "t1", created_at := 0 }

/-- An attachment row with only the file reference set. -/
def attFileOnly : Routes.Attachment :=
  { attachment_id := "at2", file_id := some "f1", link_id := none
    assignment_id := some "a1", submission_id := none, announcement_id := none
    uploader := "t1", created_at := 0 }

/-- A store whose file and link tables hold "f1" and "l1". -/
def storeFL : Store :=
  { users := [], students := [], assignments := []
    submissions := [], attachments := [attBoth, attFileOnly]
    files := [{ file_id := "f1", filename := "f.pdf" }]
    links := [{ link_id := "l1", url := "https://example.com" }]
    comments := [], private_comments := []
    fail_on := [], next_id := 0, now := 0 }

/-- A store for the delete scenarios: teacher "t1" (the creator), student
"s1", and the published assignment "a1". -/
def store5 : Store :=
  { users := [userT1, userS1]
    students := [rosterS1]
    assignments := [publishedA1]
    submissions := [], attachments := [], files := [], links := []
    comments := [], private_comments := []
    fail_on := [], next_id := 0, now := 0 }

/-- A store for the student read view scenario: student "s1", the published
assignment "a1", and no submission rows at all. -/
def store9 : Store :=
  { users := [userS1]
    students := [rosterS1]
    assignments := [publishedA1]
    submissions := [], attachments := [], files := [], links := []
    comments := [], private_comments := []
    fail_on := [], next_id := 0, now := 0 }

theorem find?_pair_eq_none {aid uid : String} {s : Store}
    (h : pair_mem aid uid s = false) :
    s.submissions.find?
      (fun y => y.assignment_id == aid && y.user_id == uid) = none := by
  rw [List.find?_eq_none]
  intro x hx hpx
  have hmem : pair_mem aid uid s = true := by
    simp only [pair_mem, List.any_eq_true]
    exact ⟨x, hx, hpx⟩
  rw [h] at hmem
  simp at hmem

theorem find?_pair_isSome {aid uid : String} {s : Store}
    (h : pair_mem aid uid s = true) :
    ∃ x, s.submissions.find?
      (fun y => y.assignment_id == aid && y.user_id == uid) = some x := by
  rw [← Option.isSome_iff_exists, List.find?_isSome]
  simpa only [pair_mem, List.any_eq_true] using h

theorem pair_mem_iff {aid uid : String} {s : Store} :
    pair_mem aid uid s = true ↔ uid ∈ users_for aid s := by
  simp only [pair_mem, users_for, submissions_for, List.any_eq_true,
    List.mem_map, List.mem_filter, Bool.and_eq_true, beq_iff_eq]
  constructor
  · rintro ⟨x, hx, h1, h2⟩
    exact ⟨x, ⟨hx, h1⟩, h2⟩
  · rintro ⟨x, ⟨hx, h1⟩, h2⟩
    exact ⟨x, hx, h1, h2⟩

theorem pair_mem_mono {aid uid : String} {s s' : Store}
    (h : ∃ t, s'.submissions = s.submissions ++ t)
    (hm : pair_mem aid uid s = true) : pair_mem aid uid s' = true := by
  obtain ⟨t, ht⟩ := h
  simp only [pair_mem] at hm ⊢
  rw [ht, List.any_append, hm]
  rfl

theorem create_found (nd : FillableSubmissions) {s : Store} {x : Submissions}
    (h : s.submissions.find?
      (fun y => y.assignment_id == nd.assignment_id &&
                y.user_id == nd.user_id) = some x) :
    Submissions.create nd s = .ok (x, s) := by
  unfold Submissions.create
  rw [h]

theorem create_fresh (nd : FillableSubmissions) {s : Store}
    (h : s.submissions.find?
      (fun y => y.assignment_id == nd.assignment_id &&
                y.user_id == nd.user_id) = none)
    (hf : (nd.assignment_id, nd.user_id) ∉ s.fail_on) :
    Submissions.create nd s =
      .ok (Submissions.fresh_row nd s, Submissions.insert_row nd s) := by
  unfold Submissions.create
  rw [h]
  simp only [if_neg hf]

theorem create_failing (nd : FillableSubmissions) {s : Store}
    (h : s.submissions.find?
      (fun y => y.assignment_id == nd.assignment_id &&
                y.user_id == nd.user_id) = none)
    (hf : (nd.assignment_id, nd.user_id) ∈ s.fail_on) :
    Submissions.create nd s = .error .query := by
  unfold Submissions.create
  rw [h]
  simp only [if_pos hf]

theorem create_ok_store {nd : FillableSubmissions} {s : Store} {r : Submissions}
    {s' : Store} (h : Submissions.create nd s = .ok (r, s')) :
    s' = s ∨ s' = Submissions.insert_row nd s := by
  unfold Submissions.create at h
  split at h
  · left
    simp only [Except.ok.injEq, Prod.mk.injEq] at h
    exact h.2.symm
  · split at h
    · cases h
    · right
      simp only [Except.ok.injEq, Prod.mk.injEq] at h
      exact h.2.symm

theorem fanout_skel (aid : String) (L : List Student) (s : Store) :
    (fanout aid L s).2.users = s.users ∧
    (fanout aid L s).2.students = s.students ∧
    (fanout aid L s).2.assignments = s.assignments ∧
    (fanout aid L s).2.fail_on = s.fail_on ∧
    ∃ t, (fanout aid L s).2.submissions = s.submissions ++ t := by
  induction L generalizing s with
  | nil => exact ⟨rfl, rfl, rfl, rfl, [], by simp [fanout]⟩
  | cons i rest ih =>
    cases hc : Submissions.create ⟨aid, i.user_id⟩ s with
    | error e =>
      have hres : fanout aid (i :: rest) s = (.error .InternalServerError, s) := by
        simp only [fanout, hc]
      rw [hres]
      exact ⟨rfl, rfl, rfl, rfl, [], by simp⟩
    | ok p =>
      obtain ⟨r, s1⟩ := p
      have hrec := ih s1
      have hres : fanout aid (i :: rest) s = fanout aid rest s1 := by
        simp only [fanout, hc]
      rw [hres]
      rcases create_ok_store hc with rfl | hs1
      · exact hrec
      · obtain ⟨h1, h2, h3, h4, t, h5⟩ := hrec
        subst hs1
        refine ⟨h1, h2, h3, h4,
          Submissions.fresh_row ⟨aid, i.user_id⟩ s :: t, ?_⟩
        rw [h5]
        simp [Submissions.insert_row]

theorem fanout_noop {aid : String} {L : List Student} {s : Store}
    (h : ∀ st ∈ L, pair_mem aid st.user_id s = true) :
    fanout aid L s = (.ok (), s) := by
  induction L with
  | nil => rfl
  | cons i rest ih =>
    obtain ⟨x, hx⟩ := find?_pair_isSome (h i (by simp))
    have hc : Submissions.create ⟨aid, i.user_id⟩ s = .ok (x, s) :=
      create_found ⟨aid, i.user_id⟩ hx
    have hres : fanout aid (i :: rest) s = fanout aid rest s := by
      simp only [fanout, hc]
    rw [hres]
    exact ih (fun st hst => h st (by simp [hst]))

theorem fanout_fresh {aid : String} {L : List Student} {s : Store}
    (hnd : (L.map Student.user_id).Nodup)
    (hnew : ∀ st ∈ L, pair_mem aid st.user_id s = false)
    (hnf : ∀ st ∈ L, (aid, st.user_id) ∉ s.fail_on) :
    ∃ s', fanout aid L s = (.ok (), s') ∧
      users_for aid s' = users_for aid s ++ L.map Student.user_id ∧
      s'.users = s.users ∧ s'.students = s.students ∧
      s'.assignments = s.assignments ∧ s'.fail_on = s.fail_on := by
  induction L generalizing s with
  | nil => exact ⟨s, rfl, by simp, rfl, rfl, rfl, rfl⟩
  | cons i rest ih =>
    have hhead : i.user_id ∉ rest.map Student.user_id :=
      (List.nodup_cons.mp (by simpa using hnd)).1
    have htail : (rest.map Student.user_id).Nodup :=
      (List.nodup_cons.mp (by simpa using hnd)).2
    have hfind := find?_pair_eq_none (hnew i (by simp))
    have hc := create_fresh ⟨aid, i.user_id⟩ hfind (hnf i (by simp))
    have hstep : fanout aid (i :: rest) s =
        fanout aid rest (Submissions.insert_row ⟨aid, i.user_id⟩ s) := by
      simp only [fanout, hc]
    have hnew' : ∀ st ∈ rest,
        pair_mem aid st.user_id (Submissions.insert_row ⟨aid, i.user_id⟩ s) = false := by
      intro st hst
      have h0 := hnew st (by simp [hst])
      have hne : (i.user_id == st.user_id) = false := by
        rw [beq_eq_false_iff_ne]
        intro he
        exact hhead (he ▸ List.mem_map_of_mem Student.user_id hst)
      simp only [pair_mem] at h0 ⊢
      simp [Submissions.insert_row, Submissions.fresh_row, List.any_append, h0, hne]
    have hnf' : ∀ st ∈ rest,
        (aid, st.user_id) ∉ (Submissions.insert_row ⟨aid, i.user_id⟩ s).fail_on :=
      fun st hst => hnf st (by simp [hst])
    obtain ⟨s', h1, h2, h3, h4, h5, h6⟩ := ih htail hnew' hnf'
    refine ⟨s', hstep.trans h1, ?_, h3, h4, h5, h6⟩
    rw [h2]
    have husers : users_for aid (Submissions.insert_row ⟨aid, i.user_id⟩ s) =
        users_for aid s ++ [i.user_id] := by
      simp [users_for, submissions_for, Submissions.insert_row,
        Submissions.fresh_row, List.filter_append]
    rw [husers]
    simp

theorem fanout_fail {aid : String} {R1 R2 : List Student} {i : Student} {s : Store}
    (h1 : ∀ x ∈ R1, (aid, x.user_id) ∉ s.fail_on)
    (hmem : pair_mem aid i.user_id s = false)
    (hni : ∀ x ∈ R1, i.user_id ≠ x.user_id)
    (hifail : (aid, i.user_id) ∈ s.fail_on) :
    ∃ s', fanout aid (R1 ++ i :: R2) s = (.error .InternalServerError, s') ∧
      (∀ x ∈ R1, pair_mem aid x.user_id s' = true) ∧
      s'.users = s.users ∧ s'.students = s.students ∧
      s'.assignments = s.assignments ∧ s'.fail_on = s.fail_on ∧
      ∃ t, s'.submissions = s.submissions ++ t := by
  induction R1 generalizing s with
  | nil =>
    have hfind := find?_pair_eq_none hmem
    have hc : Submissions.create ⟨aid, i.user_id⟩ s = .error .query :=
      create_failing ⟨aid, i.user_id⟩ hfind hifail
    have hres : fanout aid ([] ++ i :: R2) s = (.error .InternalServerError, s) := by
      simp only [List.nil_append, fanout, hc]
    exact ⟨s, hres, by simp, rfl, rfl, rfl, rfl, [], by simp⟩
  | cons x R1' ih =>
    cases hfx : s.submissions.find?
        (fun y => y.assignment_id == aid && y.user_id == x.user_id) with
    | some y =>
      have hc : Submissions.create ⟨aid, x.user_id⟩ s = .ok (y, s) :=
        create_found ⟨aid, x.user_id⟩ hfx
      have hstep : fanout aid ((x :: R1') ++ i :: R2) s =
          fanout aid (R1' ++ i :: R2) s := by
        rw [List.cons_append]
        simp only [fanout, hc]
      have hpy := List.find?_some hfx
      have hmy := List.mem_of_find?_eq_some hfx
      have hpx : pair_mem aid x.user_id s = true := by
        simp only [pair_mem, List.any_eq_true]
        exact ⟨y, hmy, hpy⟩
      obtain ⟨s', hA, hB, hC, hD, hE, hF, hG⟩ :=
        ih (fun z hz => h1 z (by simp [hz])) hmem
          (fun z hz => hni z (by simp [hz])) hifail
      refine ⟨s', hstep.trans hA, ?_, hC, hD, hE, hF, hG⟩
      intro z hz
      rcases List.mem_cons.mp hz with rfl | hz'
      · exact pair_mem_mono hG hpx
      · exact hB z hz'
    | none =>
      have hc := create_fresh ⟨aid, x.user_id⟩ hfx (h1 x (by simp))
      have hstep : fanout aid ((x :: R1') ++ i :: R2) s =
          fanout aid (R1' ++ i :: R2) (Submissions.insert_row ⟨aid, x.user_id⟩ s) := by
        rw [List.cons_append]
        simp only [fanout, hc]
      have hinsmem : pair_mem aid x.user_id
          (Submissions.insert_row ⟨aid, x.user_id⟩ s) = true := by
        simp [pair_mem, Submissions.insert_row, Submissions.fresh_row,
          List.any_append]
      have hmem' : pair_mem aid i.user_id
          (Submissions.insert_row ⟨aid, x.user_id⟩ s) = false := by
        have hne : (i.user_id == x.user_id) = false := by
          rw [beq_eq_false_iff_ne]
          exact hni x (by simp)
        simp only [pair_mem] at hmem ⊢
        simp [Submissions.insert_row, Submissions.fresh_row, List.any_append,
          hmem]
        simp only [beq_iff_eq] at hne ⊢
        intro he
        exact absurd he.symm (by simpa using hne)
      obtain ⟨s', hA, hB, hC, hD, hE, hF, hG⟩ :=
        ih (s := Submissions.insert_row ⟨aid, x.user_id⟩ s)
          (fun z hz => h1 z (by simp [hz])) hmem'
          (fun z hz => hni z (by simp [hz])) hifail
      refine ⟨s', hstep.trans hA, ?_, hC, hD, hE, hF, ?_⟩
      · intro z hz
        rcases List.mem_cons.mp hz with rfl | hz'
        · exact pair_mem_mono hG hinsmem
        · exact hB z hz'
      · obtain ⟨t, ht⟩ := hG
        refine ⟨Submissions.fresh_row ⟨aid, x.user_id⟩ s :: t, ?_⟩
        rw [ht]
        simp [Submissions.insert_row]

theorem find_user_users_eq {k : String} {s s' : Store} (h : s'.users = s.users) :
    User.find_user k s' = User.find_user k s := by
  simp [User.find_user, h]

theorem find_user_self {k : String} {s : Store} {u : User}
    (h : User.find_user k s = some u) :
    User.find_user u.user_id s = some u := by
  have hp := List.find?_some h
  simp only [beq_iff_eq] at hp
  rw [User.find_user, hp]
  exact h

theorem collect_emails_users_eq {L : List Student} {s s' : Store}
    (h : s'.users = s.users) :
    collect_emails L s' = collect_emails L s := by
  induction L with
  | nil => rfl
  | cons st rest ih =>
    simp only [collect_emails, find_user_users_eq h, ih]

theorem collect_emails_total {L : List Student} {s : Store}
    (h : ∀ st ∈ L, (User.find_user st.user_id s).isSome) :
    ∃ es, collect_emails L s = some es := by
  induction L with
  | nil => exact ⟨[], rfl⟩
  | cons st rest ih =>
    obtain ⟨u, hu⟩ := Option.isSome_iff_exists.mp (h st (by simp))
    obtain ⟨es, hes⟩ := ih (fun y hy => h y (by simp [hy]))
    exact ⟨u.email :: es, by simp [collect_emails, hu, hes]⟩

theorem apply_update_assignment_id (a : Assignment) (f : FillableAssignments) :
    (apply_update a f).assignment_id = a.assignment_id := rfl

theorem apply_update_creator_some (a : Assignment) {f : FillableAssignments}
    {c : String} (h : f.creator = some c) :
    (apply_update a f).creator = some c := by
  simp [apply_update, h]

theorem apply_update_name_some (a : Assignment) {f : FillableAssignments}
    {v : String} (h : f.assignment_name = some v) :
    (apply_update a f).assignment_name = some v := by
  simp [apply_update, h]

theorem apply_update_instructions_some (a : Assignment) {f : FillableAssignments}
    {v : String} (h : f.instructions = some v) :
    (apply_update a f).instructions = some v := by
  simp [apply_update, h]

theorem find?_map_update {l : List Assignment} {i : String} {a newA : Assignment}
    (hid : newA.assignment_id = a.assignment_id)
    (h : l.find? (fun x => x.assignment_id == i) = some a) :
    (l.map (fun x => if x.assignment_id == a.assignment_id then newA else x)).find?
      (fun x => x.assignment_id == i) = some newA := by
  induction l with
  | nil => cases h
  | cons y l' ih =>
    by_cases hy : (y.assignment_id == i) = true
    · simp only [List.find?, hy] at h
      injection h with h
      subst h
      simp only [List.map_cons, beq_self_eq_true, if_true]
      simp [List.find?, hid, hy]
    · have hyf : (y.assignment_id == i) = false := by
        simpa using hy
      simp only [List.find?, hyf] at h
      have ha := List.find?_some h
      have hya : (y.assignment_id == a.assignment_id) = false := by
        rw [beq_eq_false_iff_ne]
        simp only [beq_iff_eq] at ha
        intro he
        rw [he, ha] at hyf
        simp at hyf
      simp only [List.map_cons, hya, Bool.false_eq_true, if_false]
      simp only [List.find?, hyf]
      exact ih h

theorem get_by_id_update {i : String} {s : Store} {a : Assignment}
    (f : FillableAssignments)
    (h : Assignment.get_by_id i s = some a) :
    Assignment.get_by_id i (update a f s).2 = some (apply_update a f) := by
  unfold Assignment.get_by_id at h ⊢
  unfold update
  exact find?_map_update (apply_update_assignment_id a f) h

theorem update_assignment_run
    {key class_id : String} {data : AssignmentData} {s s1 : Store} {a : Assignment}
    {u : User} {nm instr : String}
    (ha : Assignment.get_by_id data.id s = some a)
    (hfan : fanout a.assignment_id (Student.load_in_class class_id s) s = (.ok (), s1))
    (hu : User.find_user key s1 = some u)
    (hname : data.assignment.assignment_name = some nm)
    (hinstr : data.assignment.instructions = some instr)
    (hmail : ∀ st ∈ Student.load_in_class class_id s,
      (User.find_user st.user_id s1).isSome) :
    update_assignment key class_id data s =
      (.ok (apply_update a { data.assignment with creator := some u.user_id }),
       (update a { data.assignment with creator := some u.user_id } s1).2) := by
  obtain ⟨es, hes⟩ := collect_emails_total hmail
  have hcre : ((update a { data.assignment with creator := some u.user_id } s1).1).creator
      = some u.user_id := apply_update_creator_some a rfl
  have husers : ((update a { data.assignment with creator := some u.user_id } s1).2).users
      = s1.users := rfl
  have hu2 : User.find_user u.user_id
      (update a { data.assignment with creator := some u.user_id } s1).2 = some u :=
    (find_user_users_eq husers).trans (find_user_self hu)
  have hes2 : collect_emails (Student.load_in_class class_id s)
      (update a { data.assignment with creator := some u.user_id } s1).2 = some es :=
    (collect_emails_users_eq husers).trans hes
  have hname2 : ((update a { data.assignment with creator := some u.user_id } s1).1).assignment_name
      = some nm := apply_update_name_some a hname
  have hinstr2 : ((update a { data.assignment with creator := some u.user_id } s1).1).instructions
      = some instr := apply_update_instructions_some a hinstr
  have hsm : send_mail u es
      ((update a { data.assignment with creator := some u.user_id } s1).1) =
      some (es.map (fun email =>
        { to_addr := email, subject := "New Assignment",
          html := mail_html_head ++ mail_heading u.fullname nm ++
                  mail_html_mid ++ instr ++ mail_html_tail })) := by
    unfold send_mail
    rw [hname2, hinstr2]
  simp only [update_assignment, ha, hfan, get_user, hu, hcre, hu2, hes2, hsm]
  rfl

theorem get_by_id_assignments_eq {i : String} {s s' : Store}
    (h : s'.assignments = s.assignments) :
    Assignment.get_by_id i s' = Assignment.get_by_id i s := by
  simp [Assignment.get_by_id, h]

theorem load_in_class_students_eq {c : String} {s s' : Store}
    (h : s'.students = s.students) :
    Student.load_in_class c s' = Student.load_in_class c s := by
  simp [Student.load_in_class, h]

theorem users_for_submissions_eq {aid : String} {s s' : Store}
    (h : s'.submissions = s.submissions) :
    users_for aid s' = users_for aid s := by
  simp [users_for, submissions_for, h]

theorem length_submissions_for {aid : String} {s : Store} :
    (submissions_for aid s).length = (users_for aid s).length := by
  simp [users_for]

/-- C1: publish fan-out is idempotent.  For an assignment present in the
store with no submission rows yet, an actor that exists, a roster without
duplicate student ids, no database faults, and a well-formed payload, running
`update_assignment` twice leaves exactly one submission row per (assignment,
student) pair of the roster: the student references of the assignment's rows
are exactly the roster, their count is the roster size `|R|` (not `2|R|`),
and they contain no duplicate pair. -/
theorem update_assignment_fanout_idempotent
    (key class_id : String) (data : AssignmentData) (s : Store) (a : Assignment)
    (u : User) (nm instr : String)
    (ha : Assignment.get_by_id data.id s = some a)
    (hu : User.find_user key s = some u)
    (hfail : s.fail_on = [])
    (hnodup : ((Student.load_in_class class_id s).map Student.user_id).Nodup)
    (hempty : users_for a.assignment_id s = [])
    (hname : data.assignment.assignment_name = some nm)
    (hinstr : data.assignment.instructions = some instr)
    (husers : ∀ st ∈ Student.load_in_class class_id s,
      (User.find_user st.user_id s).isSome) :
    ∃ a1 s1 a2 s2,
      update_assignment key class_id data s = (.ok a1, s1) ∧
      update_assignment key class_id data s1 = (.ok a2, s2) ∧
      users_for a.assignment_id s2 =
        (Student.load_in_class class_id s).map Student.user_id ∧
      (submissions_for a.assignment_id s2).length =
        (Student.load_in_class class_id s).length ∧
      (users_for a.assignment_id s2).Nodup := by
  have hnew : ∀ st ∈ Student.load_in_class class_id s,
      pair_mem a.assignment_id st.user_id s = false := by
    intro st hst
    rw [Bool.eq_false_iff]
    intro hmem
    have := pair_mem_iff.mp hmem
    rw [hempty] at this
    simp at this
  have hnf : ∀ st ∈ Student.load_in_class class_id s,
      (a.assignment_id, st.user_id) ∉ s.fail_on := by
    intro st hst
    rw [hfail]
    simp
  obtain ⟨sA, hfanA, husersA, hAu, hAst, hAas, hAfo⟩ :=
    fanout_fresh hnodup hnew hnf
  rw [hempty, List.nil_append] at husersA
  have huA : User.find_user key sA = some u :=
    (find_user_users_eq hAu).trans hu
  have hmailA : ∀ st ∈ Student.load_in_class class_id s,
      (User.find_user st.user_id sA).isSome := by
    intro st hst
    rw [find_user_users_eq hAu]
    exact husers st hst
  have hrun1 := update_assignment_run ha hfanA huA hname hinstr hmailA
  have haA : Assignment.get_by_id data.id sA = some a :=
    (get_by_id_assignments_eq hAas).trans ha
  have ha2 : Assignment.get_by_id data.id
      (update a { data.assignment with creator := some u.user_id } sA).2 =
      some (apply_update a { data.assignment with creator := some u.user_id }) :=
    get_by_id_update _ haA
  have hS1sub : ((update a { data.assignment with creator := some u.user_id } sA).2).submissions
      = sA.submissions := rfl
  have hS1users : ((update a { data.assignment with creator := some u.user_id } sA).2).users
      = sA.users := rfl
  have hS1st : ((update a { data.assignment with creator := some u.user_id } sA).2).students
      = sA.students := rfl
  have husersS1 : users_for a.assignment_id
      (update a { data.assignment with creator := some u.user_id } sA).2 =
      (Student.load_in_class class_id s).map Student.user_id :=
    (users_for_submissions_eq hS1sub).trans husersA
  have hroster2 : Student.load_in_class class_id
      (update a { data.assignment with creator := some u.user_id } sA).2 =
      Student.load_in_class class_id s :=
    (load_in_class_students_eq hS1st).trans (load_in_class_students_eq hAst)
  have hfan2 : fanout
      (apply_update a { data.assignment with creator := some u.user_id }).assignment_id
      (Student.load_in_class class_id
        (update a { data.assignment with creator := some u.user_id } sA).2)
      (update a { data.assignment with creator := some u.user_id } sA).2 =
      (.ok (), (update a { data.assignment with creator := some u.user_id } sA).2) := by
    rw [apply_update_assignment_id, hroster2]
    apply fanout_noop
    intro st hst
    rw [pair_mem_iff, husersS1]
    exact List.mem_map_of_mem Student.user_id hst
  have hu3 : User.find_user key
      (update a { data.assignment with creator := some u.user_id } sA).2 = some u :=
    (find_user_users_eq hS1users).trans huA
  have hmail2 : ∀ st ∈ Student.load_in_class class_id
      (update a { data.assignment with creator := some u.user_id } sA).2,
      (User.find_user st.user_id
        (update a { data.assignment with creator := some u.user_id } sA).2).isSome := by
    intro st hst
    rw [hroster2] at hst
    rw [find_user_users_eq hS1users]
    exact hmailA st hst
  have hrun2 := update_assignment_run ha2 hfan2 hu3 hname hinstr hmail2
  refine ⟨_, _, _, _, hrun1, hrun2, ?_, ?_, ?_⟩
  · exact husersA
  · have hlen : (submissions_for a.assignment_id sA).length =
        (Student.load_in_class class_id s).length := by
      rw [length_submissions_for, husersA]
      simp
    exact hlen
  · have hnd : (users_for a.assignment_id sA).Nodup := by
      rw [husersA]
      exact hnodup
    exact hnd

theorem update_assignment_fanout_idempotent_witness :
    users_for draftA1.assignment_id store1 = [] ∧
    ((Student.load_in_class "c1" store1).map Student.user_id).Nodup ∧
    ∃ a1 s1 a2 s2,
      update_assignment "t1" "c1" data1 store1 = (.ok a1, s1) ∧
      update_assignment "t1" "c1" data1 s1 = (.ok a2, s2) ∧
      users_for draftA1.assignment_id s2 =
        (Student.load_in_class "c1" store1).map Student.user_id ∧
      (submissions_for draftA1.assignment_id s2).length =
        (Student.load_in_class "c1" store1).length ∧
      (users_for draftA1.assignment_id s2).Nodup :=
  ⟨by decide, by decide,
   update_assignment_fanout_idempotent "t1" "c1" data1 store1 draftA1 userT1
     "HW1" "Read ch1" (by decide) (by decide) (by decide) (by decide)
     (by decide) (by decide) (by decide) (by decide)⟩

/-- C2: during publish, a single failing submission creation makes the whole
call fail with `InternalServerError`, while every submission created for the
students processed earlier in the same call is left in the store (no
rollback), and the assignment row itself is untouched (the update step never
runs). -/
theorem update_assignment_no_rollback
    (key class_id : String) (data : AssignmentData) (s : Store) (a : Assignment)
    (R1 R2 : List Student) (i : Student)
    (ha : Assignment.get_by_id data.id s = some a)
    (hroster : Student.load_in_class class_id s = R1 ++ i :: R2)
    (h1 : ∀ x ∈ R1, (a.assignment_id, x.user_id) ∉ s.fail_on)
    (hifail : (a.assignment_id, i.user_id) ∈ s.fail_on)
    (hmem : pair_mem a.assignment_id i.user_id s = false)
    (hni : ∀ x ∈ R1, i.user_id ≠ x.user_id) :
    ∃ s', update_assignment key class_id data s = (.err .InternalServerError, s') ∧
      (∀ x ∈ R1, pair_mem a.assignment_id x.user_id s' = true) ∧
      s'.assignments = s.assignments ∧
      ∃ t, s'.submissions = s.submissions ++ t := by
  obtain ⟨s', hA, hB, hC, hD, hE, hF, hG⟩ := fanout_fail h1 hmem hni hifail
  have hx : fanout a.assignment_id (Student.load_in_class class_id s) s =
      (.error .InternalServerError, s') := by
    rw [hroster]
    exact hA
  refine ⟨s', ?_, hB, hE, hG⟩
  simp only [update_assignment, ha, hx]

theorem update_assignment_no_rollback_witness :
    (draftA1.assignment_id, rosterS2.user_id) ∈ store2.fail_on ∧
    ∃ s', update_assignment "t1" "c1" data1 store2 = (.err .InternalServerError, s') ∧
      (∀ x ∈ [rosterS1], pair_mem draftA1.assignment_id x.user_id s' = true) ∧
      s'.assignments = store2.assignments ∧
      ∃ t, s'.submissions = store2.submissions ++ t :=
  ⟨by decide,
   update_assignment_no_rollback "t1" "c1" data1 store2 draftA1 [rosterS1] []
     rosterS2 (by decide) (by decide) (by decide) (by decide) (by decide)
     (by decide)⟩

theorem fanout_ok_no_fail {aid : String} {L : List Student} {s : Store}
    (h : s.fail_on = []) : ∃ s1, fanout aid L s = (.ok (), s1) := by
  induction L generalizing s with
  | nil => exact ⟨s, rfl⟩
  | cons i rest ih =>
    cases hf : s.submissions.find?
        (fun y => y.assignment_id == aid && y.user_id == i.user_id) with
    | some x =>
      have hc : Submissions.create ⟨aid, i.user_id⟩ s = .ok (x, s) :=
        create_found ⟨aid, i.user_id⟩ hf
      obtain ⟨s1, h1⟩ := ih h
      refine ⟨s1, ?_⟩
      simp only [fanout, hc]
      exact h1
    | none =>
      have hni : ((⟨aid, i.user_id⟩ : FillableSubmissions).assignment_id,
          (⟨aid, i.user_id⟩ : FillableSubmissions).user_id) ∉ s.fail_on := by
        rw [h]
        simp
      have hc := create_fresh ⟨aid, i.user_id⟩ hf hni
      have hfo : (Submissions.insert_row ⟨aid, i.user_id⟩ s).fail_on = [] := h
      obtain ⟨s1, h1⟩ := ih hfo
      refine ⟨s1, ?_⟩
      simp only [fanout, hc]
      exact h1

/-- C7 counterexample: assignment "a1" in `store7` already has creator "t1",
yet a publish by the distinct teacher actor "t2" succeeds and returns the
assignment with creator "t2" — the previously set creator reference is not
left unchanged. -/
theorem update_assignment_creator_overwritten_cx :
    publishedA1.creator = some "t1" ∧
    ∃ a1 s1, update_assignment "t2" "c1" data1 store7 = (.ok a1, s1) ∧
      a1.creator = some "t2" ∧ a1.creator ≠ publishedA1.creator :=
  ⟨rfl, _, _, rfl, rfl, by decide⟩

/-- C7 amended: publish unconditionally overwrites the creator slot of the
update payload with the acting user before applying the partial update, so a
successful publish always leaves the assignment's creator equal to the acting
user — regardless of any previously set creator. -/
theorem update_assignment_sets_creator_to_actor
    (key class_id : String) (data : AssignmentData) (s : Store) (a : Assignment)
    (u : User) (nm instr : String)
    (ha : Assignment.get_by_id data.id s = some a)
    (hu : User.find_user key s = some u)
    (hfail : s.fail_on = [])
    (hname : data.assignment.assignment_name = some nm)
    (hinstr : data.assignment.instructions = some instr)
    (husers : ∀ st ∈ Student.load_in_class class_id s,
      (User.find_user st.user_id s).isSome) :
    ∃ a1 s1, update_assignment key class_id data s = (.ok a1, s1) ∧
      a1.creator = some u.user_id := by
  have hex : ∃ s1, fanout a.assignment_id (Student.load_in_class class_id s) s =
      (.ok (), s1) := fanout_ok_no_fail hfail
  obtain ⟨sA, hfanA⟩ := hex
  have hskel := fanout_skel a.assignment_id (Student.load_in_class class_id s) s
  rw [hfanA] at hskel
  obtain ⟨hAu, hAst, hAas, hAfo, t, hAsub⟩ := hskel
  have huA : User.find_user key sA = some u :=
    (find_user_users_eq hAu).trans hu
  have hmailA : ∀ st ∈ Student.load_in_class class_id s,
      (User.find_user st.user_id sA).isSome := by
    intro st hst
    rw [find_user_users_eq hAu]
    exact husers st hst
  have hrun := update_assignment_run ha hfanA huA hname hinstr hmailA
  exact ⟨_, _, hrun, apply_update_creator_some a rfl⟩

theorem update_assignment_sets_creator_to_actor_witness :
    publishedA1.creator = some "t1" ∧ userT2.user_id = "t2" ∧
    ∃ a1 s1, update_assignment "t2" "c1" data1 store7 = (.ok a1, s1) ∧
      a1.creator = some userT2.user_id :=
  ⟨rfl, rfl,
   update_assignment_sets_creator_to_actor "t2" "c1" data1 store7 publishedA1
     userT2 "HW1" "Read ch1" (by decide) (by decide) (by decide) (by decide)
     (by decide) (by decide)⟩

/-- C5: for a non-draft assignment whose recorded creator equals the acting
teacher's user id, `delete_assignment` rejects the request with `Forbidden`
and leaves the whole store — assignment row and attachments included —
unchanged. -/
theorem delete_assignment_forbids_creator_teacher
    (key class_id aid : String) (s : Store) (u : User) (a : Assignment)
    (hu : get_user key s = some u)
    (ha : Assignment.get_by_id aid s = some a)
    (ht : u.status = "teacher")
    (hd : a.draft = false)
    (hc : a.creator = some u.user_id) :
    delete_assignment key class_id aid s = (.err .Forbidden, s) := by
  have hst : u.is_student = false := by
    simp [User.is_student, ht]
  have hte : u.is_teacher = true := by
    simp [User.is_teacher, ht]
  simp only [delete_assignment, hu, ha, hst, hd, hte, hc]
  simp

theorem delete_assignment_forbids_creator_teacher_witness :
    publishedA1.draft = false ∧ publishedA1.creator = some userT1.user_id ∧
    delete_assignment "t1" "c1" "a1" store5 = (.err .Forbidden, store5) :=
  ⟨rfl, rfl,
   delete_assignment_forbids_creator_teacher "t1" "c1" "a1" store5 userT1
     publishedA1 (by decide) (by decide) (by decide) (by decide) (by decide)⟩

/-- C6: for an existing assignment, an actor whose status is "student" is
rejected with `Forbidden` both by `delete_assignment` and by
`teachers_assignment`, whatever the assignment's creator; in both cases the
store is returned unchanged and no payload is produced. -/
theorem student_forbidden_delete_and_teacher_view
    (key class_id aid : String) (s : Store) (u : User) (a : Assignment)
    (hu : User.find_user key s = some u)
    (hs : u.status = "student")
    (ha : Assignment.get_by_id aid s = some a) :
    delete_assignment key class_id aid s = (.err .Forbidden, s) ∧
    teachers_assignment key class_id aid s = (.err .Forbidden, s) := by
  have hst : u.is_student = true := by
    simp [User.is_student, hs]
  constructor
  · simp only [delete_assignment, get_user, hu, ha, hst]
    simp
  · simp only [teachers_assignment, hu, hst]
    simp

theorem student_forbidden_delete_and_teacher_view_witness :
    userS1.status = "student" ∧
    delete_assignment "s1" "c1" "a1" store5 = (.err .Forbidden, store5) ∧
    teachers_assignment "s1" "c1" "a1" store5 = (.err .Forbidden, store5) :=
  ⟨rfl,
   (student_forbidden_delete_and_teacher_view "s1" "c1" "a1" store5 userS1
     publishedA1 (by decide) (by decide) (by decide)).1,
   (student_forbidden_delete_and_teacher_view "s1" "c1" "a1" store5 userS1
     publishedA1 (by decide) (by decide) (by decide)).2⟩

/-- C3 counterexample: `Attachment.create` accepts an input with zero owner
references set (both `assignment_id` and `announcement_id` are `none`) and
also an input with two owner references set, returning `.ok` with the
references copied unchanged in both cases — no input is rejected. -/
theorem attachment_create_no_owner_check_cx :
    (∃ att, Attachment.create ⟨"f1", none, none, "u1"⟩ 7 0 = .ok att ∧
      att.assignment_id = none ∧ att.announcement_id = none) ∧
    (∃ att, Attachment.create ⟨"f1", some "a1", some "an1", "u1"⟩ 7 0 = .ok att ∧
      att.assignment_id = some "a1" ∧ att.announcement_id = some "an1") :=
  ⟨⟨_, rfl, rfl, rfl⟩, ⟨_, rfl, rfl, rfl⟩⟩

/-- C3 amended: `Attachment::create` performs no owner-cardinality check at
all: for every input it succeeds and copies the owner references (and the
file reference and uploader) unchanged into the stored row, so attachments
with zero or with two owner references are accepted; the struct also has no
submission owner reference to begin with. -/
theorem attachment_create_copies_owner_refs (nd : FillableAttachment)
    (rid now : Nat) :
    ∃ att, Attachment.create nd rid now = .ok att ∧
      att.assignment_id = nd.assignment_id ∧
      att.announcement_id = nd.announcement_id ∧
      att.file_id = nd.file_id ∧ att.uploader = nd.uploader :=
  ⟨_, rfl, rfl, rfl, rfl, rfl⟩

/-- C4 counterexample: for an attachment whose file and link references are
both set (and resolvable), the resolved view produced by `get_attachments`
has both `file` and `link` present — the resolver does not enforce "never
both". -/
theorem get_attachments_both_present_cx :
    attBoth.file_id.isSome = true ∧ attBoth.link_id.isSome = true ∧
    ∃ r, get_attachments [attBoth] storeFL = some [r] ∧
      r.file.isSome = true ∧ r.link.isSome = true :=
  ⟨rfl, rfl, _, rfl, rfl, rfl⟩

/-- C4 amended: whenever `get_attachments` succeeds, each resolved view pairs
its input attachment with `file` present iff the attachment's file reference
was set and `link` present iff its link reference was set; both are present
exactly when the attachment has both references set (the resolver does not
enforce mutual exclusion of the two). -/
theorem get_attachments_file_link_iff
    (vec : List Routes.Attachment) (s : Store) (res : List AssignmentResponse)
    (h : get_attachments vec s = some res) :
    List.Forall₂ (fun t r => r.attachment = t ∧
      r.file.isSome = t.file_id.isSome ∧ r.link.isSome = t.link_id.isSome)
      vec res := by
  induction vec generalizing res with
  | nil =>
    simp only [get_attachments, Option.some.injEq] at h
    subst h
    exact List.Forall₂.nil
  | cons thing rest ih =>
    cases hf : thing.file_id with
    | none =>
      cases hl : thing.link_id with
      | none =>
        simp only [get_attachments, hf, hl] at h
        cases hrec : get_attachments rest s with
        | none => rw [hrec] at h; cases h
        | some res' =>
          rw [hrec] at h
          simp only [Option.some.injEq] at h
          subst h
          exact List.Forall₂.cons ⟨rfl, by simp [hf], by simp [hl]⟩ (ih _ hrec)
      | some lid =>
        simp only [get_attachments, hf, hl] at h
        cases hr : Link.receive lid s with
        | none => rw [hr] at h; cases h
        | some l =>
          rw [hr] at h
          cases hrec : get_attachments rest s with
          | none => rw [hrec] at h; cases h
          | some res' =>
            rw [hrec] at h
            simp only [Option.some.injEq] at h
            subst h
            exact List.Forall₂.cons ⟨rfl, by simp [hf], by simp [hl]⟩ (ih _ hrec)
    | some fid =>
      cases hfr : UploadedFile.receive fid s with
      | none =>
        simp only [get_attachments, hf, hfr] at h
        cases h
      | some f =>
        cases hl : thing.link_id with
        | none =>
          simp only [get_attachments, hf, hfr, hl] at h
          cases hrec : get_attachments rest s with
          | none => rw [hrec] at h; cases h
          | some res' =>
            rw [hrec] at h
            simp only [Option.some.injEq] at h
            subst h
            exact List.Forall₂.cons ⟨rfl, by simp [hf], by simp [hl]⟩ (ih _ hrec)
        | some lid =>
          simp only [get_attachments, hf, hfr, hl] at h
          cases hr : Link.receive lid s with
          | none => rw [hr] at h; cases h
          | some l =>
            rw [hr] at h
            cases hrec : get_attachments rest s with
            | none => rw [hrec] at h; cases h
            | some res' =>
              rw [hrec] at h
              simp only [Option.some.injEq] at h
              subst h
              exact List.Forall₂.cons ⟨rfl, by simp [hf], by simp [hl]⟩ (ih _ hrec)

theorem get_attachments_file_link_iff_witness :
    List.Forall₂ (fun (t : Routes.Attachment) (r : AssignmentResponse) =>
      r.attachment = t ∧
      r.file.isSome = t.file_id.isSome ∧ r.link.isSome = t.link_id.isSome)
      [attFileOnly]
      [({ attachment := attFileOnly, file := some ⟨"f1", "f.pdf"⟩,
          link := none } : AssignmentResponse)] :=
  get_attachments_file_link_iff [attFileOnly] storeFL
    [({ attachment := attFileOnly, file := some ⟨"f1", "f.pdf"⟩,
        link := none } : AssignmentResponse)]
    (by decide)

/-- C8 counterexample: for a concrete sender and assignment the message
rendered by `send_mail` carries the fixed subject line "New Assignment",
which differs from the claim's subject "New Assignment from {sender}:
{assignment name}" (that text appears only as the body's heading). -/
theorem send_mail_subject_cx :
    (∃ m, send_mail userT1 ["s1@example.com"] publishedA1 = some [m] ∧
      m.subject = "New Assignment") ∧
    mail_heading userT1.fullname "HW1" = "New Assignment from Tia Teacher: HW1" ∧
    ("New Assignment" : String) ≠ "New Assignment from Tia Teacher: HW1" :=
  ⟨⟨_, rfl, rfl⟩, by decide, by decide⟩

/-- C8 amended: when the assignment's name and instructions are set,
`send_mail` renders one message per recipient e-mail address, addressed to
the recipients in order; every message has the fixed subject "New
Assignment", and its body is the fixed HTML template with the heading "New
Assignment from {sender}: {assignment name}" and the instructions
interpolated. -/
theorem send_mail_renders
    (user : User) (emails : List String) (assignment : Assignment)
    (nm instr : String)
    (hname : assignment.assignment_name = some nm)
    (hinstr : assignment.instructions = some instr) :
    ∃ mails, send_mail user emails assignment = some mails ∧
      mails.length = emails.length ∧
      mails.map Mail.to_addr = emails ∧
      ∀ m ∈ mails, m.subject = "New Assignment" ∧
        m.html = mail_html_head ++ mail_heading user.fullname nm ++
                 mail_html_mid ++ instr ++ mail_html_tail := by
  refine ⟨emails.map (fun email =>
      { to_addr := email, subject := "New Assignment",
        html := mail_html_head ++ mail_heading user.fullname nm ++
                mail_html_mid ++ instr ++ mail_html_tail }), ?_, ?_, ?_, ?_⟩
  · unfold send_mail
    rw [hname, hinstr]
  · simp
  · simp only [List.map_map]
    exact List.map_id' emails
  · intro m hm
    simp only [List.mem_map] at hm
    obtain ⟨e, he, rfl⟩ := hm
    exact ⟨rfl, rfl⟩

theorem send_mail_renders_witness :
    publishedA1.assignment_name = some "HW1" ∧
    ∃ mails, send_mail userT1 ["s1@example.com", "s2@example.com"] publishedA1
        = some mails ∧
      mails.length = (["s1@example.com", "s2@example.com"] : List String).length ∧
      mails.map Mail.to_addr = ["s1@example.com", "s2@example.com"] ∧
      ∀ m ∈ mails, m.subject = "New Assignment" ∧
        m.html = mail_html_head ++ mail_heading userT1.fullname "HW1" ++
                 mail_html_mid ++ "Read ch1" ++ mail_html_tail :=
  ⟨rfl,
   send_mail_renders userT1 ["s1@example.com", "s2@example.com"] publishedA1
     "HW1" "Read ch1" rfl rfl⟩

/-- C9 counterexample: student "s1" exists, the assignment "a1" exists, but
no submission row exists for ("a1", "s1"); the student read view then
terminates in a panic (the `.unwrap()` of the failed submission lookup), not
in the `NotFound` error status the claim promises. -/
theorem students_assignment_panics_cx :
    Submissions.get_by_id "a1" "s1" store9 = none ∧
    students_assignment "s1" "c1" "a1" store9 = (.panicked, store9) ∧
    (students_assignment "s1" "c1" "a1" store9).1 ≠ .err .NotFound :=
  ⟨rfl, rfl, by decide⟩

/-- C9 amended: for a student actor, the student read view returns
`NotFound` when the requested assignment does not exist; but when the
assignment exists and the acting student has no submission row for it, the
handler panics on the unwrapped submission lookup instead of returning
`NotFound`.  In both cases the store is unchanged. -/
theorem students_assignment_notfound_and_panic
    (key class_id aid : String) (s : Store) (u : User)
    (hu : User.find_user key s = some u)
    (hs : u.status = "student") :
    (Assignment.get_by_id aid s = none →
      students_assignment key class_id aid s = (.err .NotFound, s)) ∧
    (∀ a, Assignment.get_by_id aid s = some a →
      Submissions.get_by_id aid u.user_id s = none →
      students_assignment key class_id aid s = (.panicked, s)) := by
  have hst : u.is_student = true := by
    simp [User.is_student, hs]
  constructor
  · intro hna
    simp only [students_assignment, hu, hst, hna]
    simp
  · intro a ha hsub
    simp only [students_assignment, hu, hst, Bool.not_true, ha]
    cases hgc : get_comments (Comment.load_by_assignment a.assignment_id s) s with
    | none => simp [hgc]
    | some cr => simp [hgc, hsub]

theorem students_assignment_notfound_and_panic_witness :
    userS1.status = "student" ∧
    students_assignment "s1" "c1" "zz" store9 = (.err .NotFound, store9) ∧
    students_assignment "s1" "c1" "a1" store9 = (.panicked, store9) :=
  ⟨rfl,
   (students_assignment_notfound_and_panic "s1" "c1" "zz" store9 userS1
     (by decide) (by decide)).1 (by decide),
   (students_assignment_notfound_and_panic "s1" "c1" "a1" store9 userS1
     (by decide) (by decide)).2 publishedA1 (by decide) (by decide)⟩

/-- C10: role parsing and printing are mutually inverse — `Role::from_str`
maps each role's display string back to that role, and every string that is
not one of the three role strings is rejected with the "Invalid role" error. -/
theorem role_from_str_display_inverse :
    (∀ r : Role, Role.from_str (Role.display r) = .ok r) ∧
    (∀ s : String, s ≠ "admin" → s ≠ "teacher" → s ≠ "student" →
      Role.from_str s = .error "Invalid role") := by
  constructor
  · intro r
    cases r <;> rfl
  · intro s h1 h2 h3
    unfold Role.from_str
    split
    · simp_all
    · simp_all
    · simp_all
    · rfl

theorem role_from_str_display_inverse_witness :
    Role.from_str (Role.display .Student) = .ok .Student ∧
    Role.from_str "owl" = .error "Invalid role" :=
  ⟨role_from_str_display_inverse.1 .Student,
   role_from_str_display_inverse.2 "owl" (by decide) (by decide) (by decide)⟩
